import Mathlib

/-!
Verification development for the Aether posture-monitoring subsystem.

The JavaScript sources are embedded shallowly:

* JavaScript numbers are idealised as exact rationals (`ℚ`); floating-point
  rounding is out of scope.  Where the source can produce the special values
  `Infinity` / `NaN` (division by a zero denominator in the metrics
  extractor), we use the explicit carrier `JSVal` which keeps those values
  first-class, exactly as JavaScript does (division by zero does not throw).
* The opaque math-library functions `Math.sqrt`, `Math.atan2` and the
  constant `Math.PI` are taken as parameters (`sq`, `at2`, `pi`) of the
  metrics-extractor definitions; theorems assume only facts that are true of
  the real library functions (e.g. `Math.sqrt 0 = 0`).
* `Date.now()` is modelled by an explicit `now : ℚ` argument to every
  operation that reads the clock.
* Callback invocation (`onSlouchDetected` / `onPostureCorrected`) is
  modelled by event flags in the result of `processFrame`; the source invokes
  the registered callback exactly when the corresponding flag is set here.
* `console.log` / `console.error` calls have no effect on state and are not
  modelled.  Display-only string formatting (`toFixed`, template strings) is
  modelled by keeping the underlying numeric value.
-/

namespace Aether

/-! ## Data model (posture-types.ts, calibration.js, calibrated-posture-monitor.js) -/

/-- A MediaPipe landmark: a named 3D point.  The optional `visibility` field
is not read by any of the embedded computations and is omitted. -/
structure MediaPipeLandmark where
  x : ℚ
  y : ℚ
  z : ℚ
deriving DecidableEq

/-- The seven landmarks extracted by `PoseDetector.extractLandmarks`. -/
structure PostureLandmarks where
  nose : MediaPipeLandmark
  leftShoulder : MediaPipeLandmark
  rightShoulder : MediaPipeLandmark
  leftHip : MediaPipeLandmark
  rightHip : MediaPipeLandmark
  leftEar : MediaPipeLandmark
  rightEar : MediaPipeLandmark
deriving DecidableEq

/-- A JavaScript number that may be nonfinite.  Finite values are exact
rationals; `inf`, `neginf` and `nan` are the IEEE special values that
JavaScript division can produce. -/
inductive JSVal where
  | num (q : ℚ)
  | inf
  | neginf
  | nan
deriving DecidableEq

/-- JavaScript division of two finite numbers: `a / 0` is `Infinity`,
`-Infinity` or `NaN` according to the sign of `a` (negative zero is not
modelled); otherwise exact rational division. -/
def jsdiv (a b : ℚ) : JSVal :=
  if b = 0 then
    if a = 0 then .nan else if 0 < a then .inf else .neginf
  else .num (a / b)

/-- The `PostureMetrics` record returned by
`PoseDetector.calculatePostureMetrics`.  The two ratio fields are `JSVal`
because their computation divides by `shoulderWidth`, which the source does
not check for zero. -/
structure PostureMetricsJS where
  headShoulderRatio : JSVal
  shoulderAsymmetry : JSVal
  torsoAngle : ℚ
  neckAngle : ℚ
  forwardLean : ℚ
  shoulderWidth : ℚ
  timestamp : ℚ
deriving DecidableEq

/-- A finite `PostureMetrics` record, as consumed by the classifier
(`analyzePostureVsCalibration`) and the calibration store.  Those consumers
read the five feature fields and (for the calibrator's stored frames) carry
`shoulderWidth` and `timestamp` along untouched. -/
structure PostureMetrics where
  headShoulderRatio : ℚ
  shoulderAsymmetry : ℚ
  torsoAngle : ℚ
  neckAngle : ℚ
  forwardLean : ℚ
  shoulderWidth : ℚ
  timestamp : ℚ
deriving DecidableEq

/-- The five-feature average stored by `PostureCalibrator.completeCalibration`
(its `avgMetrics` object has exactly these keys). -/
structure BaselineMetrics where
  headShoulderRatio : ℚ
  shoulderAsymmetry : ℚ
  torsoAngle : ℚ
  neckAngle : ℚ
  forwardLean : ℚ
deriving DecidableEq

/-- The calibration pose being collected: `startCalibration` is called with
the string `'good'` or `'slouched'`; `completeCalibration` stores the average
under the key `poseKind + 'Posture'`. -/
inductive PoseKind where
  | good
  | slouched
deriving DecidableEq

/-- `this.calibrationData` of `PostureCalibrator` once initialised. -/
structure CalibrationData where
  goodPosture : Option BaselineMetrics
  slouchedPosture : Option BaselineMetrics
  calibratedAt : ℚ
deriving DecidableEq

/-- The mutable state of a `PostureCalibrator`.  `currentPostureType` is
`none` until the first `startCalibration` call (in JS it is `undefined`). -/
structure CalibState where
  calibrationData : Option CalibrationData
  isCalibrating : Bool
  calibrationFrames : List PostureMetrics
  requiredFrames : ℕ
  currentPostureType : Option PoseKind
deriving DecidableEq

/-- `new PostureCalibrator()`. -/
def mkCalibrator : CalibState :=
  { calibrationData := none
    isCalibrating := false
    calibrationFrames := []
    requiredFrames := 60
    currentPostureType := none }

/-- `PostureCalibrator.hasCalibration`: the profile is complete when
`calibrationData`, its `goodPosture` and its `slouchedPosture` are all
present (truthy). -/
def hasCalibration (c : CalibState) : Bool :=
  match c.calibrationData with
  | none => false
  | some d => d.goodPosture.isSome && d.slouchedPosture.isSome

/-- `PostureCalibrator.startCalibration(posturType)`. -/
def startCalibration (c : CalibState) (k : PoseKind) : CalibState :=
  { c with
    isCalibrating := true
    calibrationFrames := []
    currentPostureType := some k }

/-- Arithmetic mean of one feature over a list of frames (the accumulate-
then-divide loop of `completeCalibration` / `calculateAverageMetrics`). -/
def averageFeature (frames : List PostureMetrics) (f : PostureMetrics → ℚ) : ℚ :=
  (frames.map f).sum / (frames.length : ℚ)

/-- `PostureCalibrator.completeCalibration`: averages the five features over
the accumulated frames and stores the result under the active pose kind.
Returns the updated state and the average (`null` when no frames were
collected).  `now` models `Date.now()` for the `calibratedAt` stamp. -/
def completeCalibration (c : CalibState) (now : ℚ) :
    CalibState × Option BaselineMetrics :=
  if c.calibrationFrames = [] then (c, none)
  else
    let avgMetrics : BaselineMetrics :=
      { headShoulderRatio := averageFeature c.calibrationFrames (·.headShoulderRatio)
        shoulderAsymmetry := averageFeature c.calibrationFrames (·.shoulderAsymmetry)
        torsoAngle := averageFeature c.calibrationFrames (·.torsoAngle)
        neckAngle := averageFeature c.calibrationFrames (·.neckAngle)
        forwardLean := averageFeature c.calibrationFrames PostureMetrics.forwardLean }
    let data := c.calibrationData.getD
      { goodPosture := none, slouchedPosture := none, calibratedAt := now }
    let data' :=
      match c.currentPostureType with
      | some .good => { data with goodPosture := some avgMetrics }
      | some .slouched => { data with slouchedPosture := some avgMetrics }
      | none => data
    ({ c with calibrationData := some data', isCalibrating := false },
     some avgMetrics)

/-- Progress record returned by `addCalibrationFrame`. -/
structure CalibrationProgress where
  progress : ℚ
  framesCollected : ℕ
  framesRequired : ℕ
deriving DecidableEq

/-- `PostureCalibrator.addCalibrationFrame(metrics)`: no-op returning
`undefined` when not collecting or metrics absent; otherwise appends the
frame, auto-finalises once `requiredFrames` are collected, and reports
progress. -/
def addCalibrationFrame (c : CalibState) (metrics : Option PostureMetrics)
    (now : ℚ) : CalibState × Option CalibrationProgress :=
  match metrics with
  | none => (c, none)
  | some m =>
    if c.isCalibrating then
      let c1 := { c with calibrationFrames := c.calibrationFrames ++ [m] }
      let progress : ℚ :=
        ((c1.calibrationFrames.length : ℚ) / (c1.requiredFrames : ℚ)) * 100
      let c2 :=
        if c1.requiredFrames ≤ c1.calibrationFrames.length then
          (completeCalibration c1 now).1
        else c1
      (c2, some { progress := progress
                  framesCollected := c1.calibrationFrames.length
                  framesRequired := c1.requiredFrames })
    else (c, none)

/-- Outcome of `checkIfRecalibrationNeeded`.  The source renders the reason
into a string (naming the offending metric and its deviation percentage);
we keep it structured. -/
inductive RecalibReason where
  | noCalibrationData
  | deviationExceeded (metric : String) (deviationPct : ℚ)
  | withinRange
deriving DecidableEq

/-- Result record `{ needed, reason }` of `checkIfRecalibrationNeeded`. -/
structure RecalibResult where
  needed : Bool
  reason : RecalibReason
deriving DecidableEq

/-- The five features, in the JavaScript object-key iteration order of
the sample record (`for (let metric in currentMetrics)`). -/
def baselineFeatures : List (String × (BaselineMetrics → ℚ)) :=
  [("headShoulderRatio", (·.headShoulderRatio)),
   ("shoulderAsymmetry", (·.shoulderAsymmetry)),
   ("torsoAngle", (·.torsoAngle)),
   ("neckAngle", (·.neckAngle)),
   ("forwardLean", BaselineMetrics.forwardLean)]

/-- The feature-scanning loop of `checkIfRecalibrationNeeded`: report the
first feature whose relative deviation from the calibrated value exceeds the
tolerance. -/
def firstDriftingFeature (tolerance : ℚ) (calibrated current : BaselineMetrics) :
    List (String × (BaselineMetrics → ℚ)) → Option (String × ℚ)
  | [] => none
  | (name, f) :: rest =>
    let deviation := |(f current - f calibrated) / f calibrated|
    if tolerance < deviation then some (name, deviation)
    else firstDriftingFeature tolerance calibrated current rest

/-- `PostureCalibrator.checkIfRecalibrationNeeded(currentMetrics)`,
generalised over the tolerance (the source fixes `tolerance = 0.15`; see
`checkIfRecalibrationNeeded`). -/
def checkIfRecalibrationNeededTol (tolerance : ℚ) (c : CalibState)
    (currentMetrics : BaselineMetrics) : RecalibResult :=
  match c.calibrationData with
  | none => { needed := true, reason := .noCalibrationData }
  | some d =>
    match d.goodPosture with
    | none => { needed := true, reason := .noCalibrationData }
    | some calibrated =>
      match firstDriftingFeature tolerance calibrated currentMetrics
          baselineFeatures with
      | some (name, dev) =>
        { needed := true, reason := .deviationExceeded name (dev * 100) }
      | none => { needed := false, reason := .withinRange }

/-- `PostureCalibrator.checkIfRecalibrationNeeded` with the source's
hard-coded 15% tolerance. -/
def checkIfRecalibrationNeeded (c : CalibState)
    (currentMetrics : BaselineMetrics) : RecalibResult :=
  checkIfRecalibrationNeededTol (15/100) c currentMetrics

/-! ## Posture classifier
(`CalibratedPostureMonitor.analyzePostureVsCalibration`) -/

/-- The `PostureAnalysis` record.  The source additionally renders
`totalDeviation` with `toFixed(1)` and attaches display-only formatted
strings of the current metrics; we keep the numeric deviation and omit the
display strings, which no other code reads. -/
structure PostureAnalysis where
  isSlouching : Bool
  issues : List String
  severity : String
  totalDeviation : ℚ
deriving DecidableEq

/-- `CalibratedPostureMonitor.analyzePostureVsCalibration(currentMetrics)`.
`goodPosture` is the calibrated good-posture baseline read from the
calibrator (the source also reads `calibration.slouchedPosture` into a local
that it never uses). -/
def analyzePostureVsCalibration (goodPosture : BaselineMetrics)
    (currentMetrics : PostureMetrics) : PostureAnalysis :=
  -- 1. head-shoulder ratio: 20% tolerance around the baseline
  let headShoulderDiff :=
    |currentMetrics.headShoulderRatio - goodPosture.headShoulderRatio|
  let headShoulderThreshold := goodPosture.headShoulderRatio * (20/100)
  let issues1 : List String :=
    if headShoulderThreshold < headShoulderDiff then ["forward head posture"] else []
  let dev1 : ℚ :=
    if headShoulderThreshold < headShoulderDiff then
      (headShoulderDiff / headShoulderThreshold) * 30
    else 0
  -- 2. shoulder asymmetry: allow 5% more asymmetry than the baseline
  let shoulderAsymDiff :=
    |currentMetrics.shoulderAsymmetry - goodPosture.shoulderAsymmetry|
  let shoulderThreshold := goodPosture.shoulderAsymmetry + (5/100)
  let issues2 : List String :=
    if shoulderThreshold < currentMetrics.shoulderAsymmetry then ["uneven shoulders"] else []
  let dev2 : ℚ :=
    if shoulderThreshold < currentMetrics.shoulderAsymmetry then
      (shoulderAsymDiff / (shoulderThreshold + 1/100)) * 20
    else 0
  -- 3. torso angle: 18 degrees of deviation allowed
  let torsoAngleDiff := |currentMetrics.torsoAngle - goodPosture.torsoAngle|
  let issues3 : List String :=
    if (18 : ℚ) < torsoAngleDiff then ["hunched spine"] else []
  let dev3 : ℚ :=
    if (18 : ℚ) < torsoAngleDiff then (torsoAngleDiff / 18) * 25 else 0
  -- 4. neck angle: 20 degrees of movement allowed
  let neckAngleDiff := |currentMetrics.neckAngle - goodPosture.neckAngle|
  let issues4 : List String :=
    if (20 : ℚ) < neckAngleDiff then ["head tilted down"] else []
  let dev4 : ℚ :=
    if (20 : ℚ) < neckAngleDiff then (neckAngleDiff / 20) * 20 else 0
  -- 5. forward lean: 30% tolerance around the baseline
  let forwardLeanDiff :=
    |PostureMetrics.forwardLean currentMetrics - BaselineMetrics.forwardLean goodPosture|
  let leanThreshold := BaselineMetrics.forwardLean goodPosture * (30/100)
  let issues5 : List String :=
    if leanThreshold < forwardLeanDiff then ["leaning into screen"] else []
  let dev5 : ℚ :=
    if leanThreshold < forwardLeanDiff then
      (forwardLeanDiff / (leanThreshold + 1/100)) * 15
    else 0
  let issues := issues1 ++ issues2 ++ issues3 ++ issues4 ++ issues5
  let totalDeviation := dev1 + dev2 + dev3 + dev4 + dev5
  -- overall assessment: at least 2 issues OR total deviation > 35
  let isSlouching : Bool := 2 ≤ issues.length ∨ (35 : ℚ) < totalDeviation
  let severity : String :=
    if (60 : ℚ) < totalDeviation then "severe"
    else if (40 : ℚ) < totalDeviation then "moderate"
    else "mild"
  { isSlouching := isSlouching
    issues := issues
    severity := severity
    totalDeviation := totalDeviation }

/-! ## Temporal debouncer / session monitor (`CalibratedPostureMonitor`) -/

/-- `this.stats` of the monitor. -/
structure MonitorStats where
  totalFrames : ℕ
  slouchFrames : ℕ
  goodFrames : ℕ
  alerts : ℕ
deriving DecidableEq

/-- The mutable state of a `CalibratedPostureMonitor`.  The registered
callbacks are not part of the state here; `processFrame` reports which
callback it invokes via `FrameEvents`. -/
structure Monitor where
  calibrator : CalibState
  isMonitoring : Bool
  sessionStartTime : Option ℚ
  driftCheckInterval : ℚ
  lastDriftCheck : Option ℚ
  slouchFrames : ℕ
  goodPostureFrames : ℕ
  requiredSlouchFrames : ℕ
  requiredGoodFrames : ℕ
  isCurrentlySlouched : Bool
  stats : MonitorStats
deriving DecidableEq

/-- `new CalibratedPostureMonitor(calibrator)`. -/
def mkMonitor (calibrator : CalibState) : Monitor :=
  { calibrator := calibrator
    isMonitoring := false
    sessionStartTime := none
    driftCheckInterval := 3 * 60 * 1000
    lastDriftCheck := none
    slouchFrames := 0
    goodPostureFrames := 0
    requiredSlouchFrames := 100
    requiredGoodFrames := 10
    isCurrentlySlouched := false
    stats := { totalFrames := 0, slouchFrames := 0, goodFrames := 0, alerts := 0 } }

/-- `CalibratedPostureMonitor.start()`: refuses (returns `false`, state
untouched) without a complete calibration; otherwise resets the session
state and returns `true`. -/
def Monitor.start (s : Monitor) (now : ℚ) : Bool × Monitor :=
  if hasCalibration s.calibrator then
    (true,
     { s with
       isMonitoring := true
       sessionStartTime := some now
       lastDriftCheck := some now
       slouchFrames := 0
       goodPostureFrames := 0
       isCurrentlySlouched := false
       stats := { totalFrames := 0, slouchFrames := 0, goodFrames := 0, alerts := 0 } })
  else (false, s)

/-- `CalibratedPostureMonitor.stop()`. -/
def Monitor.stop (s : Monitor) : Monitor :=
  { s with isMonitoring := false }

/-- `CalibratedPostureMonitor.resetSession()`. -/
def Monitor.resetSession (s : Monitor) (now : ℚ) : Monitor :=
  { s with
    lastDriftCheck := some now
    slouchFrames := 0
    goodPostureFrames := 0
    isCurrentlySlouched := false }

/-- Which callbacks a `processFrame` call invokes. -/
structure FrameEvents where
  slouchFired : Bool
  correctedFired : Bool
deriving DecidableEq

/-- Outcome of one `processFrame` call. -/
inductive FrameOutcome where
  /-- Returned `null`: not monitoring, or metrics absent. -/
  | skipped
  /-- `analyzePostureVsCalibration` threw a `TypeError` because the
  calibration data or its good-posture baseline is missing; by then
  `stats.totalFrames` has already been incremented. -/
  | threw
  /-- Returned the analysis, after invoking the indicated callbacks. -/
  | analyzed (a : PostureAnalysis) (ev : FrameEvents)
deriving DecidableEq

/-- The wall-clock drift-window check at the end of `processFrame`
(`perform3MinCheck` itself only logs; the state effect is the update of
`lastDriftCheck`).  A `lastDriftCheck` that was never set reads as `0` in
the subtraction, as `null` does in JavaScript arithmetic. -/
def driftCheckUpdate (s : Monitor) (now : ℚ) : Monitor :=
  if s.driftCheckInterval ≤ now - (s.lastDriftCheck.getD 0) then
    { s with lastDriftCheck := some now }
  else s

/-- `CalibratedPostureMonitor.processFrame(metrics)`, with `now` modelling
`Date.now()` during the call. -/
def processFrame (s : Monitor) (metrics : Option PostureMetrics) (now : ℚ) :
    Monitor × FrameOutcome :=
  match metrics with
  | none => (s, .skipped)
  | some m =>
    if s.isMonitoring then
      let s1 := { s with stats := { s.stats with totalFrames := s.stats.totalFrames + 1 } }
      match s1.calibrator.calibrationData with
      | none => (s1, .threw)
      | some d =>
        match d.goodPosture with
        | none => (s1, .threw)
        | some goodPosture =>
          let a := analyzePostureVsCalibration goodPosture m
          let (s2, ev) :=
            if a.isSlouching then
              -- slouching detected
              let s2 := { s1 with
                slouchFrames := s1.slouchFrames + 1
                goodPostureFrames := 0
                stats := { s1.stats with slouchFrames := s1.stats.slouchFrames + 1 } }
              if s2.requiredSlouchFrames ≤ s2.slouchFrames ∧ ¬s2.isCurrentlySlouched then
                ({ s2 with
                   isCurrentlySlouched := true
                   stats := { s2.stats with alerts := s2.stats.alerts + 1 } },
                 ({ slouchFired := true, correctedFired := false } : FrameEvents))
              else (s2, { slouchFired := false, correctedFired := false })
            else
              -- good posture detected
              let s2 := { s1 with
                slouchFrames := 0
                goodPostureFrames := s1.goodPostureFrames + 1
                stats := { s1.stats with goodFrames := s1.stats.goodFrames + 1 } }
              if s2.isCurrentlySlouched ∧ s2.requiredGoodFrames ≤ s2.goodPostureFrames then
                ({ s2 with isCurrentlySlouched := false },
                 ({ slouchFired := false, correctedFired := true } : FrameEvents))
              else (s2, { slouchFired := false, correctedFired := false })
          (driftCheckUpdate s2 now, .analyzed a ev)
    else (s, .skipped)

/-- The `{ sessionDuration, postureQuality, totalAlerts, currentState }`
record of `getStats()`.  The source renders `sessionDuration` as
`"<n> minutes"` and `postureQuality` as a percent string; we keep the
numbers. -/
structure PostureStats where
  sessionDuration : ℤ
  postureQuality : ℚ
  totalAlerts : ℕ
  currentState : String
deriving DecidableEq

/-- `x.toFixed(1)` on a nonnegative number: round to one decimal place. -/
def toFixed1 (q : ℚ) : ℚ := (round (q * 10) : ℚ) / 10

/-- `CalibratedPostureMonitor.getStats()`. -/
def getStats (s : Monitor) (now : ℚ) : PostureStats :=
  { sessionDuration :=
      match s.sessionStartTime with
      | some t0 => ⌊(now - t0) / 1000 / 60⌋
      | none => 0
    postureQuality :=
      if 0 < s.stats.totalFrames then
        toFixed1 (((s.stats.goodFrames : ℚ) / (s.stats.totalFrames : ℚ)) * 100)
      else 0
    totalAlerts := s.stats.alerts
    currentState := if s.isCurrentlySlouched then "SLOUCHED" else "GOOD" }

/-! ## Metrics extractor (`PoseDetector`, pose-detection.js)

The opaque math-library functions are parameters: `sq` models `Math.sqrt`,
`at2` models `Math.atan2`, `pi` models the constant `Math.PI`. -/

/-- `PoseDetector.getMidpoint(point1, point2)`. -/
def getMidpoint (point1 point2 : MediaPipeLandmark) : MediaPipeLandmark :=
  { x := (point1.x + point2.x) / 2
    y := (point1.y + point2.y) / 2
    z := (point1.z + point2.z) / 2 }

/-- `PoseDetector.calculateDistance(point1, point2)`:
`Math.sqrt(dx*dx + dy*dy + dz*dz)`. -/
def calculateDistance (sq : ℚ → ℚ) (point1 point2 : MediaPipeLandmark) : ℚ :=
  let dx := point1.x - point2.x
  let dy := point1.y - point2.y
  let dz := point1.z - point2.z
  sq (dx * dx + dy * dy + dz * dz)

/-- `PoseDetector.calculateAngle(point1, point2, point3)`: the two-vector
`atan2` formula in degrees, folded into `[0, 180]`. -/
def calculateAngle (at2 : ℚ → ℚ → ℚ) (pi : ℚ)
    (point1 point2 point3 : MediaPipeLandmark) : ℚ :=
  let radians := at2 (point3.y - point2.y) (point3.x - point2.x) -
                 at2 (point1.y - point2.y) (point1.x - point2.x)
  let angle := |radians * 180 / pi|
  if 180 < angle then 360 - angle else angle

/-- The record built by the `try` block of
`PoseDetector.calculatePostureMetrics` for a present landmark set.  All the
arithmetic in that block is total in JavaScript — in particular division by
a zero `shoulderWidth` silently yields `Infinity`/`NaN`, it does not throw —
so the surrounding `try`/`catch` can never return `null` here.  `now`
models `Date.now()` for the `timestamp` field. -/
def postureMetricsOf (sq : ℚ → ℚ) (at2 : ℚ → ℚ → ℚ) (pi : ℚ)
    (landmarks : PostureLandmarks) (now : ℚ) : PostureMetricsJS :=
  let shoulderMidpoint := getMidpoint landmarks.leftShoulder landmarks.rightShoulder
  let hipMidpoint := getMidpoint landmarks.leftHip landmarks.rightHip
  let earMidpoint := getMidpoint landmarks.leftEar landmarks.rightEar
  -- 1. shoulder width (reference for ratios)
  let shoulderWidth := calculateDistance sq landmarks.leftShoulder landmarks.rightShoulder
  -- 2. head-to-shoulder ratio
  let headToShoulderDistance := calculateDistance sq earMidpoint shoulderMidpoint
  let headShoulderRatio := jsdiv headToShoulderDistance shoulderWidth
  -- 3. shoulder asymmetry
  let shoulderHeightDiff := |landmarks.leftShoulder.y - landmarks.rightShoulder.y|
  let shoulderAsymmetry := jsdiv shoulderHeightDiff shoulderWidth
  -- 4. torso angle
  let torsoAngle := calculateAngle at2 pi shoulderMidpoint hipMidpoint
    { x := hipMidpoint.x, y := hipMidpoint.y + 1/10, z := hipMidpoint.z }
  -- 5. neck angle
  let neckAngle := calculateAngle at2 pi shoulderMidpoint earMidpoint landmarks.nose
  -- 6. forward lean (z-axis depth)
  let forwardLean := |shoulderMidpoint.z - hipMidpoint.z|
  { headShoulderRatio := headShoulderRatio
    shoulderAsymmetry := shoulderAsymmetry
    torsoAngle := torsoAngle
    neckAngle := neckAngle
    forwardLean := forwardLean
    shoulderWidth := shoulderWidth
    timestamp := now }

/-- `PoseDetector.calculatePostureMetrics(landmarks)`: `null` for an absent
landmark set, otherwise the record above. -/
def calculatePostureMetrics (sq : ℚ → ℚ) (at2 : ℚ → ℚ → ℚ) (pi : ℚ)
    (landmarks : Option PostureLandmarks) (now : ℚ) : Option PostureMetricsJS :=
  landmarks.map (fun l => postureMetricsOf sq at2 pi l now)

/-! ## Iterated runs of the monitor -/

/-- Number of `onSlouchDetected` invocations of one frame outcome. -/
def slouchCount : FrameOutcome → ℕ
  | .analyzed _ ev => if ev.slouchFired then 1 else 0
  | _ => 0

/-- Number of `onPostureCorrected` invocations of one frame outcome. -/
def correctedCount : FrameOutcome → ℕ
  | .analyzed _ ev => if ev.correctedFired then 1 else 0
  | _ => 0

/-- Feed `n` consecutive frames with the same metrics to the monitor,
returning the final state and the total number of `onSlouchDetected` and
`onPostureCorrected` invocations. -/
def runFrames (s : Monitor) (m : PostureMetrics) (now : ℚ) : ℕ → Monitor × ℕ × ℕ
  | 0 => (s, 0, 0)
  | n + 1 =>
    let r := processFrame s (some m) now
    let rest := runFrames r.1 m now n
    (rest.1, slouchCount r.2 + rest.2.1, correctedCount r.2 + rest.2.2)

/-- One call of the monitor's public lifecycle interface. -/
inductive MonitorOp where
  | start (now : ℚ)
  | stop
  | resetSession (now : ℚ)
  | frame (metrics : Option PostureMetrics) (now : ℚ)

/-- Apply one lifecycle call to the monitor state. -/
def runOp (s : Monitor) : MonitorOp → Monitor
  | .start now => (s.start now).2
  | .stop => s.stop
  | .resetSession now => s.resetSession now
  | .frame metrics now => (processFrame s metrics now).1

/-- Apply a sequence of lifecycle calls. -/
def runOps (s : Monitor) : List MonitorOp → Monitor
  | [] => s
  | op :: ops => runOps (runOp s op) ops

/-- Call `addCalibrationFrame` with the same metrics record `n` times. -/
def addFramesN (c : CalibState) (m : PostureMetrics) (now : ℚ) : ℕ → CalibState
  | 0 => c
  | n + 1 => (addCalibrationFrame (addFramesN c m now n) (some m) now).1

/-- The baseline the calibrator stores for a pose kind. -/
def storedBaseline (c : CalibState) (k : PoseKind) : Option BaselineMetrics :=
  match c.calibrationData with
  | none => none
  | some d => match k with
    | .good => d.goodPosture
    | .slouched => d.slouchedPosture

/-- The five averaged features of a metrics record, as a baseline. -/
def featuresOf (m : PostureMetrics) : BaselineMetrics :=
  { headShoulderRatio := m.headShoulderRatio
    shoulderAsymmetry := m.shoulderAsymmetry
    torsoAngle := m.torsoAngle
    neckAngle := m.neckAngle
    forwardLean := PostureMetrics.forwardLean m }

/-! ## Claim-side classifier formulas (for the refinement claim C4)

These definitions follow the specification's words, to be compared with
`analyzePostureVsCalibration`: per-feature tolerances {20% of baseline,
baseline + 0.05 slack, 18°, 20°, 30% of baseline}, a weighted deviation
score per exceeded tolerance with weights {30, 20, 25, 20, 15}, and verdict
`slouching = (issueCount ≥ 2) OR (totalDeviation > 35)`. -/

/-- Whether each of the five feature tolerances is exceeded, per the spec's
tolerance table (identical to the source's per-feature tests). -/
def specExceeded (b : BaselineMetrics) (m : PostureMetrics) :
    Bool × Bool × Bool × Bool × Bool :=
  (decide (b.headShoulderRatio * (20/100) < |m.headShoulderRatio - b.headShoulderRatio|),
   decide (b.shoulderAsymmetry + 5/100 < m.shoulderAsymmetry),
   decide ((18 : ℚ) < |m.torsoAngle - b.torsoAngle|),
   decide ((20 : ℚ) < |m.neckAngle - b.neckAngle|),
   decide (BaselineMetrics.forwardLean b * (30/100) <
     |PostureMetrics.forwardLean m - BaselineMetrics.forwardLean b|))

/-- The number of exceeded-tolerance issues. -/
def specIssueCount (b : BaselineMetrics) (m : PostureMetrics) : ℕ :=
  let (e1, e2, e3, e4, e5) := specExceeded b m
  (if e1 then 1 else 0) + (if e2 then 1 else 0) + (if e3 then 1 else 0) +
  (if e4 then 1 else 0) + (if e5 then 1 else 0)

/-- `totalDeviation` exactly as the claim words it: the sum over exceeded
features of `(diff / tolerance) * weight`, with weights 30, 20, 25, 20, 15.
-/
def specTotalDeviationClaim (b : BaselineMetrics) (m : PostureMetrics) : ℚ :=
  let (e1, e2, e3, e4, e5) := specExceeded b m
  (if e1 then (|m.headShoulderRatio - b.headShoulderRatio| /
               (b.headShoulderRatio * (20/100))) * 30 else 0) +
  (if e2 then (|m.shoulderAsymmetry - b.shoulderAsymmetry| /
               (b.shoulderAsymmetry + 5/100)) * 20 else 0) +
  (if e3 then (|m.torsoAngle - b.torsoAngle| / 18) * 25 else 0) +
  (if e4 then (|m.neckAngle - b.neckAngle| / 20) * 20 else 0) +
  (if e5 then
    (|PostureMetrics.forwardLean m - BaselineMetrics.forwardLean b| /
     (BaselineMetrics.forwardLean b * (30/100))) * 15 else 0)

/-- `totalDeviation` as amended: for the `shoulderAsymmetry` and
`forwardLean` features the source divides by `tolerance + 0.01`, not by the
tolerance itself. -/
def specTotalDeviationAmended (b : BaselineMetrics) (m : PostureMetrics) : ℚ :=
  let (e1, e2, e3, e4, e5) := specExceeded b m
  (if e1 then (|m.headShoulderRatio - b.headShoulderRatio| /
               (b.headShoulderRatio * (20/100))) * 30 else 0) +
  (if e2 then (|m.shoulderAsymmetry - b.shoulderAsymmetry| /
               (b.shoulderAsymmetry + 5/100 + 1/100)) * 20 else 0) +
  (if e3 then (|m.torsoAngle - b.torsoAngle| / 18) * 25 else 0) +
  (if e4 then (|m.neckAngle - b.neckAngle| / 20) * 20 else 0) +
  (if e5 then
    (|PostureMetrics.forwardLean m - BaselineMetrics.forwardLean b| /
     (BaselineMetrics.forwardLean b * (30/100) + 1/100)) * 15 else 0)

/-- The verdict exactly as the claim words it. -/
def specVerdictClaim (b : BaselineMetrics) (m : PostureMetrics) : Bool :=
  decide (2 ≤ specIssueCount b m) || decide ((35 : ℚ) < specTotalDeviationClaim b m)

/-- The severity label computed from a deviation total, as both the claim
and the source word it. -/
def specSeverity (totalDeviation : ℚ) : String :=
  if (60 : ℚ) < totalDeviation then "severe"
  else if (40 : ℚ) < totalDeviation then "moderate"
  else "mild"

/-- The verdict with the amended `totalDeviation`. -/
def specVerdictAmended (b : BaselineMetrics) (m : PostureMetrics) : Bool :=
  decide (2 ≤ specIssueCount b m) ||
  decide ((35 : ℚ) < specTotalDeviationAmended b m)

/-- The good-posture baseline the monitor's classifier reads from its
calibrator. -/
def monitorGoodBaseline (c : CalibState) : Option BaselineMetrics :=
  c.calibrationData.bind (·.goodPosture)

/-! ## Concrete fixtures used by witnesses and counterexamples -/

/-- A complete calibration baseline used as a concrete good posture. -/
def wBaseline : BaselineMetrics :=
  { headShoulderRatio := 1
    shoulderAsymmetry := 0
    torsoAngle := 90
    neckAngle := 90
    forwardLean := 1 }

/-- Calibration data with both baselines populated. -/
def wData : CalibrationData :=
  { goodPosture := some wBaseline
    slouchedPosture := some wBaseline
    calibratedAt := 0 }

/-- A calibrator holding the complete profile `wData`. -/
def wCalib : CalibState :=
  { mkCalibrator with calibrationData := some wData }

/-- A metrics record the classifier flags as slouching against `wBaseline`
(large head-shoulder and asymmetry deviations). -/
def wSlouchM : PostureMetrics :=
  { headShoulderRatio := 2
    shoulderAsymmetry := 1
    torsoAngle := 90
    neckAngle := 90
    forwardLean := 1
    shoulderWidth := 1
    timestamp := 0 }

/-- A metrics record equal to `wBaseline` on the five features: the
classifier reports good posture for it. -/
def wGoodM : PostureMetrics :=
  { headShoulderRatio := 1
    shoulderAsymmetry := 0
    torsoAngle := 90
    neckAngle := 90
    forwardLean := 1
    shoulderWidth := 1
    timestamp := 0 }

/-! ## Theorems for the claims -/

/-- A current-metrics record that separates the claim's deviation formula
from the source's: only the forward-lean tolerance is exceeded, and the
lean deviation `0.71` makes `(diff / tolerance) * 15 = 35.5 > 35` while the
source's `(diff / (tolerance + 0.01)) * 15 = 1065/31 < 35`. -/
def cexMetrics : PostureMetrics :=
  { headShoulderRatio := 1
    shoulderAsymmetry := 0
    torsoAngle := 90
    neckAngle := 90
    forwardLean := 171/100
    shoulderWidth := 1
    timestamp := 0 }

/-- C4 (counterexample): at baseline `wBaseline` and current metrics
`cexMetrics`, the claim's formula `(issueCount ≥ 2) OR (Σ (diff/tolerance)·w
> 35)` says slouching, but `analyzePostureVsCalibration` returns
`isSlouching = false`. -/
theorem classifier_claim_counterexample :
    specVerdictClaim wBaseline cexMetrics = true ∧
    (analyzePostureVsCalibration wBaseline cexMetrics).isSlouching = false := by
  have habs : |(71 : ℚ)/100| = 71/100 := abs_of_nonneg (by norm_num)
  constructor
  · norm_num [specVerdictClaim, specIssueCount, specTotalDeviationClaim,
      specExceeded, wBaseline, cexMetrics, habs]
  · norm_num [analyzePostureVsCalibration, wBaseline, cexMetrics, habs]

/-- C4 (amended): the calibrated-comparison classifier returns
`isSlouching = (issueCount ≥ 2) OR (totalDeviation > 35)` and severity
severe/moderate/mild at the 60/40 cuts, where `totalDeviation` sums
`(diff / tolerance) * weight` over the exceeded features with weights
30, 20, 25, 20, 15 — except that for the `shoulderAsymmetry` and
`forwardLean` features the divisor is `tolerance + 0.01`. -/
theorem classifier_matches_amended_spec (b : BaselineMetrics)
    (m : PostureMetrics) :
    (analyzePostureVsCalibration b m).issues.length = specIssueCount b m ∧
    (analyzePostureVsCalibration b m).totalDeviation =
      specTotalDeviationAmended b m ∧
    (analyzePostureVsCalibration b m).isSlouching = specVerdictAmended b m ∧
    (analyzePostureVsCalibration b m).severity =
      specSeverity (specTotalDeviationAmended b m) := by
  have hlen : (analyzePostureVsCalibration b m).issues.length =
      specIssueCount b m := by
    simp only [analyzePostureVsCalibration, specIssueCount, specExceeded,
      decide_eq_true_eq, List.length_append, apply_ite List.length,
      List.length_cons, List.length_nil]
  have hdev : (analyzePostureVsCalibration b m).totalDeviation =
      specTotalDeviationAmended b m := by
    simp only [analyzePostureVsCalibration, specTotalDeviationAmended,
      specExceeded, decide_eq_true_eq]
  have hver : (analyzePostureVsCalibration b m).isSlouching =
      decide (2 ≤ (analyzePostureVsCalibration b m).issues.length ∨
        (35 : ℚ) < (analyzePostureVsCalibration b m).totalDeviation) := rfl
  have hsev : (analyzePostureVsCalibration b m).severity =
      specSeverity ((analyzePostureVsCalibration b m).totalDeviation) := rfl
  refine ⟨hlen, hdev, ?_, ?_⟩
  · rw [hver, hlen, hdev, Bool.decide_or]
    rfl
  · rw [hsev, hdev]

/-- C5: if the calibration profile is not complete, `start()` returns
`false` and leaves every field of the monitor's state unchanged. -/
theorem start_refuses_without_calibration (s : Monitor) (now : ℚ)
    (h : hasCalibration s.calibrator = false) :
    s.start now = (false, s) := by
  simp [Monitor.start, h]

/-- Witness for C5: a freshly constructed monitor over an uncalibrated
calibrator is refused, with the state returned unchanged. -/
theorem start_refuses_without_calibration_witness :
    hasCalibration (mkMonitor mkCalibrator).calibrator = false ∧
    (mkMonitor mkCalibrator).start 7 = (false, mkMonitor mkCalibrator) :=
  ⟨by simp [mkMonitor, mkCalibrator, hasCalibration],
   start_refuses_without_calibration (mkMonitor mkCalibrator) 7
     (by simp [mkMonitor, mkCalibrator, hasCalibration])⟩

/-- C7: for every stored good-posture baseline and every tolerance > 0, the
drift check applied to a sample equal to the baseline itself reports
"within range" (recalibration not needed); in particular this holds for the
source's fixed 15% tolerance. -/
theorem drift_check_at_baseline_within_range (tol : ℚ) (c : CalibState)
    (d : CalibrationData) (B : BaselineMetrics) (ht : 0 < tol)
    (hc : c.calibrationData = some d) (hg : d.goodPosture = some B) :
    checkIfRecalibrationNeededTol tol c B =
      { needed := false, reason := .withinRange } ∧
    checkIfRecalibrationNeeded c B =
      { needed := false, reason := .withinRange } := by
  have key : ∀ t : ℚ, 0 < t →
      checkIfRecalibrationNeededTol t c B =
        { needed := false, reason := .withinRange } := by
    intro t htp
    simp [checkIfRecalibrationNeededTol, hc, hg, firstDriftingFeature,
      baselineFeatures, sub_self, zero_div, abs_zero, htp.asymm]
  exact ⟨key tol ht, key (15/100) (by norm_num)⟩

/-- Witness for C7: the concrete complete calibrator `wCalib` checked
against its own stored baseline, at tolerance 1/2. -/
theorem drift_check_at_baseline_within_range_witness :
    (0 : ℚ) < 1/2 ∧ wCalib.calibrationData = some wData ∧
    wData.goodPosture = some wBaseline ∧
    checkIfRecalibrationNeededTol (1/2) wCalib wBaseline =
      { needed := false, reason := .withinRange } :=
  ⟨by norm_num, rfl, rfl,
   (drift_check_at_baseline_within_range (1/2) wCalib wData wBaseline
     (by norm_num) rfl rfl).1⟩

/-- C8: for every monitor state, `getStats()` reports a posture quality of
`goodFrames / totalFrames * 100` rounded to one decimal place, and `0` when
no frames have been counted. -/
theorem getStats_postureQuality_formula (s : Monitor) (now : ℚ) :
    (getStats s now).postureQuality =
      if s.stats.totalFrames = 0 then 0
      else toFixed1 ((s.stats.goodFrames : ℚ) / (s.stats.totalFrames : ℚ) * 100) := by
  rcases Nat.eq_zero_or_pos s.stats.totalFrames with h | h
  · simp [getStats, h]
  · simp [getStats, h, Nat.pos_iff_ne_zero.mp h]

/-- While fewer than `requiredFrames` frames have been added, the calibrator
keeps collecting: after `j < requiredFrames` additions of `m` the state is
the started state with `j` copies of `m` accumulated. -/
lemma addFramesN_below_required (c : CalibState) (k : PoseKind)
    (m : PostureMetrics) (now : ℚ) :
    ∀ j, j < (startCalibration c k).requiredFrames →
      addFramesN (startCalibration c k) m now j =
        { startCalibration c k with calibrationFrames := List.replicate j m } := by
  intro j
  induction j with
  | zero => intro _; rfl
  | succ j ih =>
    intro hj
    have hj' : j < (startCalibration c k).requiredFrames := Nat.lt_of_succ_lt hj
    have hjr : j + 1 < c.requiredFrames := by simpa [startCalibration] using hj
    rw [addFramesN, ih hj']
    simp only [addCalibrationFrame, startCalibration]
    simp only [List.replicate_succ']
    simp
    exact fun h => absurd h (by omega)

/-- Averaging a constant list gives back the constant. -/
lemma averageFeature_replicate (n : ℕ) (hn : n ≠ 0) (m : PostureMetrics)
    (f : PostureMetrics → ℚ) :
    averageFeature (List.replicate n m) f = f m := by
  simp [averageFeature, List.map_replicate, List.sum_replicate, nsmul_eq_mul]
  field_simp

/-- C6: starting calibration for a pose kind and adding exactly
`requiredFrames` (60) frames with the same metrics record finalizes
automatically — the stored baseline for that kind equals the record on each
of the five averaged features and the store exits collecting state. -/
theorem constant_calibration_finalizes_to_baseline (c : CalibState)
    (k : PoseKind) (m : PostureMetrics) (now : ℚ)
    (hr : c.requiredFrames = 60) :
    (addFramesN (startCalibration c k) m now 60).isCalibrating = false ∧
    storedBaseline (addFramesN (startCalibration c k) m now 60) k =
      some (featuresOf m) := by
  have h59 : addFramesN (startCalibration c k) m now 59 =
      { startCalibration c k with calibrationFrames := List.replicate 59 m } :=
    addFramesN_below_required c k m now 59 (by simp [startCalibration, hr])
  have h60 : (59 : ℕ) + 1 = 60 := rfl
  rw [show (60 : ℕ) = 59 + 1 from rfl, addFramesN, h59]
  simp only [addCalibrationFrame, startCalibration]
  have hlen : c.requiredFrames ≤ (List.replicate 59 m ++ [m]).length := by
    simp [hr]
  rw [if_pos hlen]
  have hfull : List.replicate 59 m ++ [m] = List.replicate 60 m := by
    rw [← List.replicate_succ']
  simp only [hfull]
  have hne : List.replicate 60 m ≠ ([] : List PostureMetrics) := by simp
  simp only [completeCalibration, if_neg hne]
  have havg : ∀ f : PostureMetrics → ℚ,
      averageFeature (List.replicate 60 m) f = f m := fun f =>
    averageFeature_replicate 60 (by norm_num) m f
  cases k with
  | good =>
    simp only [storedBaseline, featuresOf, havg]
    simp
  | slouched =>
    simp only [storedBaseline, featuresOf, havg]
    simp

/-- Witness for C6: the fresh calibrator (whose `requiredFrames` is 60),
calibrating the good pose with the constant record `wGoodM`. -/
theorem constant_calibration_finalizes_to_baseline_witness :
    mkCalibrator.requiredFrames = 60 ∧
    (addFramesN (startCalibration mkCalibrator .good) wGoodM 0 60).isCalibrating
      = false ∧
    storedBaseline (addFramesN (startCalibration mkCalibrator .good) wGoodM 0 60)
      .good = some (featuresOf wGoodM) :=
  ⟨rfl,
   (constant_calibration_finalizes_to_baseline mkCalibrator .good wGoodM 0 rfl).1,
   (constant_calibration_finalizes_to_baseline mkCalibrator .good wGoodM 0 rfl).2⟩

/-! ### Helper lemmas about `driftCheckUpdate` and the debouncer runs -/

@[simp] lemma driftCheckUpdate_isMonitoring (s : Monitor) (now : ℚ) :
    (driftCheckUpdate s now).isMonitoring = s.isMonitoring := by
  unfold driftCheckUpdate; split <;> rfl

@[simp] lemma driftCheckUpdate_calibrator (s : Monitor) (now : ℚ) :
    (driftCheckUpdate s now).calibrator = s.calibrator := by
  unfold driftCheckUpdate; split <;> rfl

@[simp] lemma driftCheckUpdate_slouchFrames (s : Monitor) (now : ℚ) :
    (driftCheckUpdate s now).slouchFrames = s.slouchFrames := by
  unfold driftCheckUpdate; split <;> rfl

@[simp] lemma driftCheckUpdate_goodPostureFrames (s : Monitor) (now : ℚ) :
    (driftCheckUpdate s now).goodPostureFrames = s.goodPostureFrames := by
  unfold driftCheckUpdate; split <;> rfl

@[simp] lemma driftCheckUpdate_requiredSlouchFrames (s : Monitor) (now : ℚ) :
    (driftCheckUpdate s now).requiredSlouchFrames = s.requiredSlouchFrames := by
  unfold driftCheckUpdate; split <;> rfl

@[simp] lemma driftCheckUpdate_requiredGoodFrames (s : Monitor) (now : ℚ) :
    (driftCheckUpdate s now).requiredGoodFrames = s.requiredGoodFrames := by
  unfold driftCheckUpdate; split <;> rfl

@[simp] lemma driftCheckUpdate_isCurrentlySlouched (s : Monitor) (now : ℚ) :
    (driftCheckUpdate s now).isCurrentlySlouched = s.isCurrentlySlouched := by
  unfold driftCheckUpdate; split <;> rfl

@[simp] lemma driftCheckUpdate_stats (s : Monitor) (now : ℚ) :
    (driftCheckUpdate s now).stats = s.stats := by
  unfold driftCheckUpdate; split <;> rfl

/-- Invariant of a monitor sitting `j` frames into an uninterrupted slouch
streak towards the default 100-frame threshold: monitoring is on, the
calibrator has a good-posture baseline, and the alert flag is set exactly
when the streak has reached the threshold. -/
def SlouchInv (d : CalibrationData) (g : BaselineMetrics) (j : ℕ)
    (s : Monitor) : Prop :=
  s.isMonitoring = true ∧
  s.calibrator.calibrationData = some d ∧
  d.goodPosture = some g ∧
  s.requiredSlouchFrames = 100 ∧
  s.slouchFrames = j ∧
  s.isCurrentlySlouched = decide (100 ≤ j)

/-- One slouch-verdict frame extends the streak by one and fires the alert
callback exactly when the streak reaches 100. -/
lemma processFrame_slouch_step (g : BaselineMetrics) (m : PostureMetrics)
    (now : ℚ) (d : CalibrationData) (j : ℕ) (s : Monitor)
    (hv : (analyzePostureVsCalibration g m).isSlouching = true)
    (hinv : SlouchInv d g j s) :
    SlouchInv d g (j + 1) (processFrame s (some m) now).1 ∧
    slouchCount (processFrame s (some m) now).2 = (if j + 1 = 100 then 1 else 0) ∧
    correctedCount (processFrame s (some m) now).2 = 0 := by
  obtain ⟨hm, hd, hgp, hreq, hsf, hflag⟩ := hinv
  simp only [processFrame, hm, if_true, hd, hgp, hv]
  simp only [hreq, hsf, hflag, decide_eq_true_eq]
  by_cases hj1 : (100 : ℕ) ≤ j + 1 ∧ ¬ (100 : ℕ) ≤ j
  · rw [if_pos hj1]
    refine ⟨⟨?_, ?_, hgp, ?_, ?_, ?_⟩, ?_, ?_⟩ <;>
      simp [slouchCount, correctedCount, hd, hreq, hsf, decide_eq_true_eq] <;>
      (try split_ifs) <;> omega
  · rw [if_neg hj1]
    refine ⟨⟨?_, ?_, hgp, ?_, ?_, ?_⟩, ?_, ?_⟩ <;>
      simp [slouchCount, correctedCount, hd, hreq, hsf, hflag,
        decide_eq_decide] <;>
      (try split_ifs) <;> omega

/-- Feeding `n` slouch-verdict frames from `j` frames into a streak fires
the slouch callback exactly once if the run crosses the 100-frame
threshold, and never fires the correction callback. -/
lemma runFrames_slouch_aux (g : BaselineMetrics) (m : PostureMetrics)
    (now : ℚ) (hv : (analyzePostureVsCalibration g m).isSlouching = true) :
    ∀ (n : ℕ) (s : Monitor) (d : CalibrationData) (j : ℕ),
      SlouchInv d g j s →
      (runFrames s m now n).2.1 = (if 100 ≤ j + n ∧ j < 100 then 1 else 0) ∧
      (runFrames s m now n).2.2 = 0 := by
  intro n
  induction n with
  | zero =>
    intro s d j _
    rw [runFrames, if_neg (by omega)]
    exact ⟨rfl, rfl⟩
  | succ n ih =>
    intro s d j hinv
    obtain ⟨h1, h2, h3⟩ := processFrame_slouch_step g m now d j s hv hinv
    obtain ⟨ha, hb⟩ := ih (processFrame s (some m) now).1 d (j + 1) h1
    rw [runFrames]
    refine ⟨?_, ?_⟩
    · simp only [h2, ha]
      split_ifs <;> omega
    · simp only [h3, hb]

/-- C1: from a freshly started monitor (state GOOD, both streak counters 0),
feeding consecutive slouch-verdict frames invokes `onSlouchDetected` zero
times while fewer than `requiredSlouchFrames` (100) frames have been fed,
and exactly once — with no re-fire — for any longer uninterrupted run; no
correction callback fires. -/
theorem slouch_debounce_fires_once (c : CalibState) (d : CalibrationData)
    (g : BaselineMetrics) (m : PostureMetrics) (now0 now : ℚ) (n : ℕ)
    (hc : hasCalibration c = true)
    (hd : c.calibrationData = some d)
    (hg : d.goodPosture = some g)
    (hv : (analyzePostureVsCalibration g m).isSlouching = true) :
    (runFrames ((mkMonitor c).start now0).2 m now n).2.1 =
      (if 100 ≤ n then 1 else 0) ∧
    (runFrames ((mkMonitor c).start now0).2 m now n).2.2 = 0 := by
  have hstart : SlouchInv d g 0 ((mkMonitor c).start now0).2 := by
    refine ⟨?_, ?_, hg, ?_, ?_, ?_⟩ <;>
      simp [Monitor.start, mkMonitor, hc, hd]
  have := runFrames_slouch_aux g m now hv n ((mkMonitor c).start now0).2 d 0 hstart
  have hiff : ((100 ≤ 0 + n ∧ 0 < 100) : Prop) ↔ (100 ≤ n) := by omega
  rwa [if_congr hiff rfl rfl] at this

/-- Witness for C1: the calibrated fixture `wCalib` with the slouching
metrics `wSlouchM`, run for 150 frames. -/
theorem slouch_debounce_fires_once_witness :
    hasCalibration wCalib = true ∧
    wCalib.calibrationData = some wData ∧
    wData.goodPosture = some wBaseline ∧
    (analyzePostureVsCalibration wBaseline wSlouchM).isSlouching = true ∧
    ((runFrames ((mkMonitor wCalib).start 0).2 wSlouchM 0 150).2.1 =
      (if 100 ≤ 150 then 1 else 0) ∧
     (runFrames ((mkMonitor wCalib).start 0).2 wSlouchM 0 150).2.2 = 0) :=
  ⟨rfl, rfl, rfl,
   by norm_num [analyzePostureVsCalibration, wBaseline, wSlouchM],
   slouch_debounce_fires_once wCalib wData wBaseline wSlouchM 0 0 150 rfl rfl rfl
     (by norm_num [analyzePostureVsCalibration, wBaseline, wSlouchM])⟩

/-- Invariant of a monitor sitting `k` frames into an uninterrupted
good-posture streak that started in the SLOUCHED alert state, towards the
default 10-frame dismissal threshold. -/
def GoodInv (d : CalibrationData) (g : BaselineMetrics) (k : ℕ)
    (s : Monitor) : Prop :=
  s.isMonitoring = true ∧
  s.calibrator.calibrationData = some d ∧
  d.goodPosture = some g ∧
  s.requiredGoodFrames = 10 ∧
  s.goodPostureFrames = k ∧
  s.isCurrentlySlouched = decide (k < 10)

/-- One good-verdict frame extends the good streak by one and fires the
correction callback exactly when the streak reaches 10. -/
lemma processFrame_good_step (g : BaselineMetrics) (m : PostureMetrics)
    (now : ℚ) (d : CalibrationData) (k : ℕ) (s : Monitor)
    (hv : (analyzePostureVsCalibration g m).isSlouching = false)
    (hinv : GoodInv d g k s) :
    GoodInv d g (k + 1) (processFrame s (some m) now).1 ∧
    correctedCount (processFrame s (some m) now).2 = (if k + 1 = 10 then 1 else 0) ∧
    slouchCount (processFrame s (some m) now).2 = 0 := by
  obtain ⟨hm, hd, hgp, hreq, hk, hflag⟩ := hinv
  simp only [processFrame, hm, if_true, hd, hgp, hv, Bool.false_eq_true,
    if_false]
  simp only [hreq, hk, hflag, decide_eq_true_eq]
  by_cases hk1 : k < 10 ∧ (10 : ℕ) ≤ k + 1
  · rw [if_pos hk1]
    refine ⟨⟨?_, ?_, hgp, ?_, ?_, ?_⟩, ?_, ?_⟩ <;>
      simp [slouchCount, correctedCount, hd, hreq, hk, decide_eq_true_eq,
        decide_eq_false_iff_not] <;>
      (try split_ifs) <;> omega
  · rw [if_neg hk1]
    refine ⟨⟨?_, ?_, hgp, ?_, ?_, ?_⟩, ?_, ?_⟩ <;>
      simp [slouchCount, correctedCount, hd, hreq, hk, hflag,
        decide_eq_decide] <;>
      (try split_ifs) <;> omega

/-- Feeding `n` good-verdict frames from `k` frames into a good streak fires
the correction callback exactly once if the run crosses the 10-frame
threshold, never fires the slouch callback, and preserves the invariant. -/
lemma runFrames_good_aux (g : BaselineMetrics) (m : PostureMetrics)
    (now : ℚ) (hv : (analyzePostureVsCalibration g m).isSlouching = false) :
    ∀ (n : ℕ) (s : Monitor) (d : CalibrationData) (k : ℕ),
      GoodInv d g k s →
      GoodInv d g (k + n) (runFrames s m now n).1 ∧
      (runFrames s m now n).2.2 = (if 10 ≤ k + n ∧ k < 10 then 1 else 0) ∧
      (runFrames s m now n).2.1 = 0 := by
  intro n
  induction n with
  | zero =>
    intro s d k hinv
    rw [runFrames, if_neg (by omega)]
    exact ⟨hinv, rfl, rfl⟩
  | succ n ih =>
    intro s d k hinv
    obtain ⟨h1, h2, h3⟩ := processFrame_good_step g m now d k s hv hinv
    obtain ⟨ha, hb, hc⟩ := ih (processFrame s (some m) now).1 d (k + 1) h1
    rw [runFrames]
    refine ⟨by rwa [show k + 1 + n = k + (n + 1) by omega] at ha, ?_, ?_⟩
    · simp only [h2, hb]
      split_ifs <;> omega
    · simp only [h3, hc]

/-- A slouch-verdict frame resets the consecutive-good counter to 0. -/
lemma processFrame_slouch_resets_good (g : BaselineMetrics)
    (m' : PostureMetrics) (now : ℚ) (d : CalibrationData) (s : Monitor)
    (hm : s.isMonitoring = true)
    (hd : s.calibrator.calibrationData = some d)
    (hgp : d.goodPosture = some g)
    (hv' : (analyzePostureVsCalibration g m').isSlouching = true) :
    (processFrame s (some m') now).1.goodPostureFrames = 0 := by
  simp only [processFrame, hm, if_true, hd, hgp, hv']
  rw [driftCheckUpdate_goodPostureFrames]
  split <;> rfl

/-- C2: from the SLOUCHED alert state (good streak 0), feeding
`requiredGoodFrames` (10) consecutive good-verdict frames invokes
`onPostureCorrected` exactly once and returns the state to GOOD; fewer
frames invoke it zero times and leave the state SLOUCHED; and a single
slouch-verdict frame anywhere in the good streak resets the
consecutive-good counter to 0. -/
theorem correction_debounce (s : Monitor) (d : CalibrationData)
    (g : BaselineMetrics) (m m' : PostureMetrics) (now : ℚ) (n : ℕ)
    (hm : s.isMonitoring = true)
    (hd : s.calibrator.calibrationData = some d)
    (hg : d.goodPosture = some g)
    (hreq : s.requiredGoodFrames = 10)
    (hflag : s.isCurrentlySlouched = true)
    (hk : s.goodPostureFrames = 0)
    (hv : (analyzePostureVsCalibration g m).isSlouching = false)
    (hv' : (analyzePostureVsCalibration g m').isSlouching = true) :
    (runFrames s m now n).2.2 = (if 10 ≤ n then 1 else 0) ∧
    (runFrames s m now n).1.isCurrentlySlouched = decide (n < 10) ∧
    (runFrames s m now n).2.1 = 0 ∧
    ∀ k, (processFrame (runFrames s m now k).1 (some m') now).1.goodPostureFrames
      = 0 := by
  have hinv : GoodInv d g 0 s := ⟨hm, hd, hg, hreq, hk, by simpa using hflag⟩
  refine ⟨?_, ?_, ?_, ?_⟩
  · have h := (runFrames_good_aux g m now hv n s d 0 hinv).2.1
    have hiff : ((10 ≤ 0 + n ∧ 0 < 10) : Prop) ↔ (10 ≤ n) := by omega
    rwa [if_congr hiff rfl rfl] at h
  · have h := (runFrames_good_aux g m now hv n s d 0 hinv).1.2.2.2.2.2
    simpa using h
  · exact (runFrames_good_aux g m now hv n s d 0 hinv).2.2
  · intro k
    obtain ⟨hm2, hd2, hg2, _, _, _⟩ :=
      (runFrames_good_aux g m now hv k s d 0 hinv).1
    exact processFrame_slouch_resets_good g m' now d _ hm2 hd2 hg2 hv'

/-- Witness for C2: the started fixture monitor put into the SLOUCHED alert
state, fed 12 good-verdict frames (`wGoodM`), with `wSlouchM` as the
interrupting slouch frame. -/
theorem correction_debounce_witness :
    (({ ((mkMonitor wCalib).start 0).2 with isCurrentlySlouched := true }
        : Monitor).isMonitoring = true) ∧
    (analyzePostureVsCalibration wBaseline wGoodM).isSlouching = false ∧
    (analyzePostureVsCalibration wBaseline wSlouchM).isSlouching = true ∧
    (runFrames ({ ((mkMonitor wCalib).start 0).2 with
        isCurrentlySlouched := true }) wGoodM 0 12).2.2 =
      (if 10 ≤ 12 then 1 else 0) :=
  ⟨rfl,
   by norm_num [analyzePostureVsCalibration, wBaseline, wGoodM],
   by norm_num [analyzePostureVsCalibration, wBaseline, wSlouchM],
   (correction_debounce
     ({ ((mkMonitor wCalib).start 0).2 with isCurrentlySlouched := true })
     wData wBaseline wGoodM wSlouchM 0 12 rfl rfl rfl rfl rfl rfl
     (by norm_num [analyzePostureVsCalibration, wBaseline, wGoodM])
     (by norm_num [analyzePostureVsCalibration, wBaseline, wSlouchM])).1⟩

/-- The session-statistics equality together with the supporting fact that a
monitoring monitor always has a complete calibration (which rules out the
mid-frame `TypeError` path of `processFrame`). -/
def MonitorInv (s : Monitor) : Prop :=
  s.stats.totalFrames = s.stats.slouchFrames + s.stats.goodFrames ∧
  (s.isMonitoring = true → hasCalibration s.calibrator = true)

/-- Every lifecycle call preserves `MonitorInv`. -/
lemma runOp_preserves_MonitorInv (s : Monitor) (op : MonitorOp)
    (h : MonitorInv s) : MonitorInv (runOp s op) := by
  obtain ⟨hstats, hmon⟩ := h
  cases op with
  | start now =>
    by_cases hc : hasCalibration s.calibrator = true
    · simp [runOp, Monitor.start, hc, MonitorInv]
    · simp only [runOp, Monitor.start]
      rw [if_neg hc]
      exact ⟨hstats, hmon⟩
  | stop =>
    exact ⟨hstats, by simp [runOp, Monitor.stop]⟩
  | resetSession now =>
    exact ⟨hstats, by simpa [runOp, Monitor.resetSession] using hmon⟩
  | frame metrics now =>
    cases metrics with
    | none => exact ⟨hstats, hmon⟩
    | some m =>
      by_cases hmn : s.isMonitoring = true
      · have hc := hmon hmn
        obtain ⟨d, hd⟩ : ∃ d, s.calibrator.calibrationData = some d := by
          unfold hasCalibration at hc
          cases hcd : s.calibrator.calibrationData with
          | none => rw [hcd] at hc; exact absurd hc (by simp)
          | some d => exact ⟨d, rfl⟩
        obtain ⟨g, hg⟩ : ∃ g, d.goodPosture = some g := by
          unfold hasCalibration at hc
          rw [hd] at hc
          simp only [Bool.and_eq_true] at hc
          exact Option.isSome_iff_exists.mp hc.1
        constructor
        · simp only [runOp, processFrame, hmn, if_true, hd, hg]
          split_ifs <;> simp [hstats] <;> omega
        · intro hmn2
          have : (runOp s (.frame (some m) now)).calibrator = s.calibrator := by
            simp only [runOp, processFrame, hmn, if_true, hd, hg]
            split_ifs <;> simp
          rw [this]
          exact hc
      · simp only [runOp, processFrame]
        rw [if_neg hmn]
        exact ⟨hstats, hmon⟩

/-- C10: for every calibrator and every sequence of lifecycle calls
(`start`, `stop`, `resetSession`, `processFrame` with present or absent
metrics), the session statistics of the monitor reached from the freshly
constructed state satisfy `totalFrames = slouchFrames + goodFrames`; the
empty sequence gives the initial state, so the equality also holds
initially. -/
theorem stats_total_eq_slouch_add_good (c : CalibState)
    (ops : List MonitorOp) :
    (runOps (mkMonitor c) ops).stats.totalFrames =
      (runOps (mkMonitor c) ops).stats.slouchFrames +
      (runOps (mkMonitor c) ops).stats.goodFrames := by
  have hrun : ∀ (l : List MonitorOp) (s : Monitor),
      MonitorInv s → MonitorInv (runOps s l) := by
    intro l
    induction l with
    | nil => intro s h; exact h
    | cons op l ih =>
      intro s h
      exact ih _ (runOp_preserves_MonitorInv s op h)
  have hinit : MonitorInv (mkMonitor c) := by
    refine ⟨rfl, ?_⟩
    intro h
    simp [mkMonitor] at h
  exact (hrun ops (mkMonitor c) hinit).1

/-! ### Extractor claims -/

/-- A landmark set whose left and right shoulders coincide (zero-length
shoulder segment), with the ear midpoint one unit away from the shoulder
midpoint. -/
def degenerateLandmarks : PostureLandmarks :=
  { nose := { x := 1, y := 1, z := 0 }
    leftShoulder := { x := 0, y := 0, z := 0 }
    rightShoulder := { x := 0, y := 0, z := 0 }
    leftHip := { x := 0, y := 2, z := 0 }
    rightHip := { x := 0, y := 2, z := 0 }
    leftEar := { x := 0, y := 1, z := 0 }
    rightEar := { x := 0, y := 1, z := 0 } }

/-- C3: on a landmark set with `leftShoulder = rightShoulder`, metrics
extraction does NOT fail — JavaScript division by the zero shoulder width
yields `Infinity`/`NaN` without throwing, so `calculatePostureMetrics`
returns a record whose `headShoulderRatio` is `Infinity` and whose
`shoulderAsymmetry` is `NaN`.  The hypotheses state facts true of
`Math.sqrt` at the two square-distance values this input produces. -/
theorem degenerate_shoulder_metrics (sq : ℚ → ℚ) (at2 : ℚ → ℚ → ℚ)
    (pi now : ℚ) (h0 : sq 0 = 0) (h1 : sq 1 = 1) :
    calculatePostureMetrics sq at2 pi (some degenerateLandmarks) now =
      some (postureMetricsOf sq at2 pi degenerateLandmarks now) ∧
    (postureMetricsOf sq at2 pi degenerateLandmarks now).headShoulderRatio =
      JSVal.inf ∧
    (postureMetricsOf sq at2 pi degenerateLandmarks now).shoulderAsymmetry =
      JSVal.nan := by
  refine ⟨rfl, ?_, ?_⟩ <;>
  · simp only [postureMetricsOf, degenerateLandmarks, getMidpoint,
      calculateDistance]
    norm_num [h0, h1, jsdiv]

/-- A stand-in for `Math.sqrt` agreeing with it on the inputs 0 and 1. -/
def sqW : ℚ → ℚ := fun q => if q = 1 then 1 else 0

/-- A stand-in for `Math.atan2`, agreeing with it at the origin. -/
def at2W : ℚ → ℚ → ℚ := fun _ _ => 0

/-- A rational stand-in for `Math.PI`. -/
def piW : ℚ := 355/113

/-- Witness for C3: the degenerate landmark set evaluated with the concrete
square-root stand-in. -/
theorem degenerate_shoulder_metrics_witness :
    (sqW 0 = 0 ∧ sqW 1 = 1) ∧
    (calculatePostureMetrics sqW at2W piW (some degenerateLandmarks) 0 =
       some (postureMetricsOf sqW at2W piW degenerateLandmarks 0) ∧
     (postureMetricsOf sqW at2W piW degenerateLandmarks 0).headShoulderRatio =
       JSVal.inf ∧
     (postureMetricsOf sqW at2W piW degenerateLandmarks 0).shoulderAsymmetry =
       JSVal.nan) :=
  ⟨⟨by norm_num [sqW], by norm_num [sqW]⟩,
   degenerate_shoulder_metrics sqW at2W piW 0
     (by norm_num [sqW]) (by norm_num [sqW])⟩

/-- C9 (counterexample): two evaluations of `calculatePostureMetrics` on
the same landmark set, made at different wall-clock times, return records
that are not equal — the `timestamp` field differs. -/
theorem metrics_not_equal_across_time :
    calculatePostureMetrics sqW at2W piW (some degenerateLandmarks) 0 ≠
    calculatePostureMetrics sqW at2W piW (some degenerateLandmarks) 1 := by
  intro h
  simp only [calculatePostureMetrics, Option.map_some'] at h
  have ht := congrArg PostureMetricsJS.timestamp (Option.some.inj h)
  simp only [postureMetricsOf] at ht
  norm_num at ht

/-- C9 (amended): metrics extraction is deterministic on every field except
`timestamp` (which records the wall-clock time of the call): for any
landmark set and any two call times, the two returned records agree on
`headShoulderRatio`, `shoulderAsymmetry`, `torsoAngle`, `neckAngle`,
`forwardLean` and `shoulderWidth`. -/
theorem metrics_deterministic_except_timestamp (sq : ℚ → ℚ)
    (at2 : ℚ → ℚ → ℚ) (pi : ℚ) (l : PostureLandmarks) (t1 t2 : ℚ) :
    (postureMetricsOf sq at2 pi l t1).headShoulderRatio =
      (postureMetricsOf sq at2 pi l t2).headShoulderRatio ∧
    (postureMetricsOf sq at2 pi l t1).shoulderAsymmetry =
      (postureMetricsOf sq at2 pi l t2).shoulderAsymmetry ∧
    (postureMetricsOf sq at2 pi l t1).torsoAngle =
      (postureMetricsOf sq at2 pi l t2).torsoAngle ∧
    (postureMetricsOf sq at2 pi l t1).neckAngle =
      (postureMetricsOf sq at2 pi l t2).neckAngle ∧
    PostureMetricsJS.forwardLean (postureMetricsOf sq at2 pi l t1) =
      PostureMetricsJS.forwardLean (postureMetricsOf sq at2 pi l t2) ∧
    (postureMetricsOf sq at2 pi l t1).shoulderWidth =
      (postureMetricsOf sq at2 pi l t2).shoulderWidth :=
  ⟨rfl, rfl, rfl, rfl, rfl, rfl⟩

end Aether
